import Mathlib

/-!
Verification of the OTA webserver anomaly-decision pipeline.

This file gives a shallow embedding, in Lean 4, of the parts of the
repository that the spec's claims are about:

* the statistical helpers and the count-based ML feature builder
  (`src/services/featureAggregationService.js`),
* the legacy time-based feature builder (always-throwing stub in the same
  file),
* the production inference handler (`postAnomalyInferHandler` in the anomaly
  controller),
* the policy engine (`src/policy/policyEngine.js`),
* the anomaly monitor window statistics (`src/services/anomalyMonitorService.js`),
* the firmware assignment / report state machine
  (`src/services/otaService.js` and the device service).

Modelling conventions: JavaScript numbers are modelled as rationals `ℚ`; a
raw value that fails `isFiniteNumber` (absent, non-numeric, `NaN`,
infinite) is modelled as `Option.none`, since the code only ever observes
such values through `isFiniteNumber`.  `Math.sqrt` is modelled by
`Rat.sqrt`; no theorem below depends on the numeric value of a square
root.  I/O collaborators (MongoDB, InfluxDB, the scorer HTTP service) are
modelled by passing their observed results as explicit arguments, and the
writes a handler performs are returned as explicit effect records.
-/

namespace OTAWeb

/-- A JavaScript value, as far as the embedded code inspects one:
a finite number, a string, or anything else (undefined, null, NaN, …),
which every `typeof x === 'number'` / `typeof x === 'string'` test
rejects uniformly. -/
inductive JsVal where
  | num (q : ℚ)
  | str (s : String)
  | undef
  deriving DecidableEq, Repr

/-- Model of `typeof v === 'number'` for values that can reach the
inference handler's validation (finite numbers are `num`). -/
def JsVal.isNumber : JsVal → Bool
  | .num _ => true
  | _ => false

/-- Model of `typeof v === 'string' ? v : null`. -/
def JsVal.asString : JsVal → Option String
  | .str s => some s
  | _ => none

/-- Model of the `AppError` class from `src/utils/errors.js`: a message and
an HTTP status code. -/
structure AppError where
  message : String
  statusCode : Nat
  deriving DecidableEq, Repr

/-- Boolean success test on `Except` results (the repository's handlers
either resolve or throw). -/
def isOkB {ε α : Type} : Except ε α → Bool
  | .ok _ => true
  | .error _ => false

instance {ε α : Type} [DecidableEq ε] [DecidableEq α] : DecidableEq (Except ε α) := fun a b =>
  match a, b with
  | .ok x, .ok y =>
    if h : x = y then isTrue (by rw [h]) else isFalse (fun hc => h (Except.ok.inj hc))
  | .error x, .error y =>
    if h : x = y then isTrue (by rw [h]) else isFalse (fun hc => h (Except.error.inj hc))
  | .ok _, .error _ => isFalse (fun hc => Except.noConfusion hc)
  | .error _, .ok _ => isFalse (fun hc => Except.noConfusion hc)

/-!
Character-list models of the JavaScript string methods the code uses
(`trim`, `toLowerCase`, `toUpperCase`, `startsWith`, `endsWith`).  They
are definitionally structural so concrete instances evaluate inside
proofs.
-/

/-- JS `s.trim()`: strip leading and trailing whitespace. -/
def jsTrim (s : String) : String :=
  ⟨((s.data.dropWhile Char.isWhitespace).reverse.dropWhile Char.isWhitespace).reverse⟩

/-- JS `s.toLowerCase()`. -/
def jsToLower (s : String) : String := ⟨s.data.map Char.toLower⟩

/-- JS `s.toUpperCase()`. -/
def jsToUpper (s : String) : String := ⟨s.data.map Char.toUpper⟩

/-- JS `s.startsWith(p)`. -/
def strStartsWith (s p : String) : Bool := p.data.isPrefixOf s.data

/-- JS `s.endsWith(p)`. -/
def strEndsWith (s p : String) : Bool := p.data.reverse.isPrefixOf s.data.reverse

/-- Lexicographic code-unit comparison of character lists. -/
def charListLt : List Char → List Char → Bool
  | [], [] => false
  | [], _ :: _ => true
  | _ :: _, [] => false
  | a :: as, b :: bs =>
    if a.val < b.val then true
    else if b.val < a.val then false
    else charListLt as bs

/-- JS `a < b` on strings: lexicographic comparison of code units. -/
def strLt (a b : String) : Bool := charListLt a.data b.data

namespace FeatAgg

/-!
Statistical helpers from `featureAggregationService.js` lines 82-204.
The JS helpers first filter out `null`/`undefined`/`NaN` entries; in this
embedding the input lists already contain only finite numbers (`ℚ`), so
that filter is the identity and only the emptiness guards remain.
-/

/-- JS `mean(values)`: 0 on an empty list, else the average. -/
def mean (values : List ℚ) : ℚ :=
  if values = [] then 0 else values.sum / (values.length : ℚ)

/-- JS `std(values)`: 0 on an empty list, else the square root of the mean
squared deviation (`Math.sqrt` modelled by `Rat.sqrt`). -/
def std (values : List ℚ) : ℚ :=
  if values = [] then 0
  else Rat.sqrt (mean (values.map (fun v => (v - mean values) * (v - mean values))))

/-- JS `median(values)`: 0 on an empty list, else the middle element (or the
average of the two middle elements) of the ascending sort. -/
def median (values : List ℚ) : ℚ :=
  if values = [] then 0
  else
    let sorted := values.mergeSort (fun a b => a ≤ b)
    let mid := sorted.length / 2
    if values.length % 2 = 0 then
      ((sorted.getD (mid - 1) 0) + (sorted.getD mid 0)) / 2
    else
      sorted.getD mid 0

/-- JS `min(values)`: 0 on an empty list, else `Math.min(...)`. -/
def minV (values : List ℚ) : ℚ :=
  match values with
  | [] => 0
  | v :: vs => vs.foldl (fun a b => if b < a then b else a) v

/-- JS `max(values)`: 0 on an empty list, else `Math.max(...)`. -/
def maxV (values : List ℚ) : ℚ :=
  match values with
  | [] => 0
  | v :: vs => vs.foldl (fun a b => if b > a then b else a) v

/-- JS `pctAbove(values, threshold)`: percentage of values strictly above
the threshold, 0 on an empty list. -/
def pctAbove (values : List ℚ) (threshold : ℚ) : ℚ :=
  if values = [] then 0
  else ((values.filter (fun v => threshold < v)).length : ℚ) / (values.length : ℚ) * 100

/-- JS `trendSlope(values)`: ordinary-least-squares slope of value against
index, 0 when fewer than two values.  (The JS `isNaN(slope)` fallback is
unreachable for `n ≥ 2` distinct indices; division by zero yields 0 in
`ℚ` just as the fallback yields 0.) -/
def trendSlope (values : List ℚ) : ℚ :=
  if values.length < 2 then 0
  else
    let n : ℚ := (values.length : ℚ)
    let idx : List ℚ := (List.range values.length).map (fun i => (i : ℚ))
    let sumX := idx.sum
    let sumY := values.sum
    let sumXY := ((idx.zip values).map (fun p => p.1 * p.2)).sum
    let sumXX := (idx.map (fun x => x * x)).sum
    (n * sumXY - sumX * sumY) / (n * sumXX - sumX * sumX)

/-- JS `spikeRatio(values)`: percentage of values strictly above
`mean + 2·std`, 0 on an empty list. -/
def spikeRatio' (values : List ℚ) : ℚ :=
  if values = [] then 0
  else
    let threshold := mean values + 2 * std values
    ((values.filter (fun v => threshold < v)).length : ℚ) / (values.length : ℚ) * 100

/-- JS `delta(values)`: last minus first value, 0 when fewer than two. -/
def delta (values : List ℚ) : ℚ :=
  if values.length < 2 then 0
  else values.getLastD 0 - values.headD 0

/-- JS `rateOfChange(values, timeWindowMinutes)`: `delta / window`, 0 when
the window is missing or non-positive. -/
def rateOfChange (values : List ℚ) (timeWindowMinutes : ℚ) : ℚ :=
  if values = [] ∨ timeWindowMinutes ≤ 0 then 0
  else delta values / timeWindowMinutes

end FeatAgg

/-- A raw telemetry event as returned by `fetchRecentMetricEvents`:
`timestamp` is the event time in epoch milliseconds (`none` models a
missing/invalid `_time`), `timestamp_provided` is the provenance flag as
stored in Influx (the contract check is `!== true`), and `metrics` maps
field names to their value (`none` models a value that fails
`isFiniteNumber`). -/
structure RawEvent where
  timestamp : Option Int := none
  timestamp_provided : Option Bool := none
  metrics : List (String × Option ℚ) := []
  deriving DecidableEq, Repr

/-- First-match lookup of a metric field on an event object. -/
def lookupMetric (m : List (String × Option ℚ)) (k : String) : Option ℚ :=
  match m.find? (fun kv => kv.1 == k) with
  | some kv => kv.2
  | none => none

/-- JS `pick(keys)` inside `normalizeRawMetrics`: the first alias whose
value is a finite number, else `null`. -/
def pickAlias (m : List (String × Option ℚ)) : List String → Option ℚ
  | [] => none
  | k :: ks =>
    match lookupMetric m k with
    | some v => some v
    | none => pickAlias m ks

/-- JS `normalizeRawMetrics` (featureAggregationService.js lines 907-931):
maps a canonical metric key to the first finite value among its vendor
aliases; any non-canonical key reads as absent. -/
def normalizeRawMetrics (m : List (String × Option ℚ)) (canon : String) : Option ℚ :=
  if canon = "cpu_usage" then pickAlias m ["cpu_usage", "cpu"]
  else if canon = "mem_usage" then pickAlias m ["mem_usage", "memory_usage", "memory"]
  else if canon = "storage_mb" then pickAlias m ["storage_mb", "storage_usage", "storage", "disk_usage"]
  else if canon = "battery_level" then pickAlias m ["battery_level", "battery"]
  else if canon = "temperature" then pickAlias m ["temperature", "temp"]
  else if canon = "uptime_hrs" then pickAlias m ["uptime_hrs", "uptime_hours"]
  else if canon = "workload_level" then pickAlias m ["workload_level"]
  else if canon = "error_count" then pickAlias m ["error_count"]
  else if canon = "rssi" then pickAlias m ["rssi", "signal_strength"]
  else if canon = "network_latency_ms" then pickAlias m ["network_latency_ms", "network_latency", "latency_ms", "latency"]
  else if canon = "packet_loss_pct" then pickAlias m ["packet_loss_pct", "packet_loss"]
  else none

/-- JS `computePresent(events, rawKey)` (line 933-935): 1 iff some window
event carries a finite value for the canonical raw key. -/
def computePresent (events : List RawEvent) (rawKey : String) : ℚ :=
  if events.any (fun e => (normalizeRawMetrics e.metrics rawKey).isSome) then 1 else 0

/-- The per-window data the count-based builder works from: the window
events (ascending by event timestamp), the first event timestamp, the
window span in minutes, and the sorted event timestamps. -/
structure WindowCtx where
  windowEvents : List RawEvent
  firstTs : Option Int
  windowMinutes : ℚ
  timestampsMs : List Int
  deriving DecidableEq, Repr

/-- The finite values observed for one canonical metric over a list of
events (`values(rawKey)` in the JS, which maps `e.raw?.[rawKey]` and keeps
the finite numbers). -/
def metricValues (events : List RawEvent) (key : String) : List ℚ :=
  events.filterMap (fun e => normalizeRawMetrics e.metrics key)

/-- The per-metric value list of the window. -/
def wvalues (w : WindowCtx) (key : String) : List ℚ :=
  metricValues w.windowEvents key

/-- UTC hour of an epoch-millisecond timestamp (`Date.getUTCHours`). -/
def utcHour (t : Int) : Int := (t.ediv 3600000).emod 24

/-- UTC day of week of an epoch-millisecond timestamp (`Date.getUTCDay`,
0 = Sunday; the epoch began on a Thursday). -/
def utcDay (t : Int) : Int := ((t.ediv 86400000) + 4).emod 7

/-- Positive consecutive gaps, in seconds, of a sorted list of
epoch-millisecond timestamps (featureAggregationService.js lines
1104-1109): non-positive gaps are dropped. -/
def timeGaps (ts : List Int) : List ℚ :=
  (ts.zip ts.tail).filterMap (fun p =>
    let g : ℚ := ((p.2 - p.1 : Int) : ℚ) / 1000
    if 0 < g then some g else none)

namespace FeatAgg

/-- Value of one base feature in the count-based builder
(featureAggregationService.js lines 986-1114): the features object is
initialised to 0 for every configured name and then the statistics below
are assigned under their non-empty-list guards (a guard that fails leaves
the initial 0, which every helper also returns on an empty list). -/
def mlFeatureValue (w : WindowCtx) (f : String) : ℚ :=
  let cpu := wvalues w "cpu_usage"
  let mem := wvalues w "mem_usage"
  let storage := wvalues w "storage_mb"
  let battery := wvalues w "battery_level"
  let temp := wvalues w "temperature"
  let uptime := wvalues w "uptime_hrs"
  let workload := wvalues w "workload_level"
  let errorCount := wvalues w "error_count"
  let rssi := wvalues w "rssi"
  let latency := wvalues w "network_latency_ms"
  let packetLoss := wvalues w "packet_loss_pct"
  if f = "window_duration_minutes" then if w.firstTs.isSome then w.windowMinutes else 0
  else if f = "window_start_hour" then match w.firstTs with | some t => (utcHour t : ℚ) | none => 0
  else if f = "window_start_day_of_week" then match w.firstTs with | some t => (utcDay t : ℚ) | none => 0
  else if f = "is_weekend" then
    match w.firstTs with
    | some t => if utcDay t = 0 ∨ utcDay t = 6 then 1 else 0
    | none => 0
  else if f = "cpu_usage_mean" then mean cpu
  else if f = "cpu_usage_std" then std cpu
  else if f = "cpu_usage_min" then minV cpu
  else if f = "cpu_usage_max" then maxV cpu
  else if f = "cpu_usage_median" then median cpu
  else if f = "cpu_usage_high_pct" then pctAbove cpu 80
  else if f = "cpu_spike_ratio" then spikeRatio' cpu
  else if f = "mem_usage_mean" then mean mem
  else if f = "mem_usage_std" then std mem
  else if f = "mem_usage_min" then minV mem
  else if f = "mem_usage_max" then maxV mem
  else if f = "mem_usage_median" then median mem
  else if f = "mem_spike_ratio" then spikeRatio' mem
  else if f = "storage_mb_mean" then mean storage
  else if f = "storage_mb_std" then std storage
  else if f = "storage_mb_min" then minV storage
  else if f = "storage_mb_max" then maxV storage
  else if f = "storage_mb_median" then median storage
  else if f = "battery_level_mean" then mean battery
  else if f = "battery_level_std" then std battery
  else if f = "battery_level_min" then minV battery
  else if f = "battery_level_max" then maxV battery
  else if f = "battery_level_median" then median battery
  else if f = "battery_level_delta" then delta battery
  else if f = "battery_drain_rate" then rateOfChange battery w.windowMinutes
  else if f = "temperature_mean" then mean temp
  else if f = "temperature_std" then std temp
  else if f = "temperature_min" then minV temp
  else if f = "temperature_max" then maxV temp
  else if f = "temperature_median" then median temp
  else if f = "temperature_high_pct" then pctAbove temp 70
  else if f = "temp_rate" then rateOfChange temp w.windowMinutes
  else if f = "uptime_hrs_mean" then mean uptime
  else if f = "uptime_hrs_std" then std uptime
  else if f = "uptime_hrs_min" then minV uptime
  else if f = "uptime_hrs_max" then maxV uptime
  else if f = "uptime_hrs_median" then median uptime
  else if f = "workload_level_mean" then mean workload
  else if f = "workload_level_std" then std workload
  else if f = "workload_level_min" then minV workload
  else if f = "workload_level_max" then maxV workload
  else if f = "workload_level_median" then median workload
  else if f = "workload_change_rate" then
    if workload ≠ [] ∧ 1 < cpu.length then
      if 0 < mean cpu then std cpu / mean cpu * 100 else 0
    else 0
  else if f = "error_count_mean" then mean errorCount
  else if f = "error_count_std" then std errorCount
  else if f = "error_count_min" then minV errorCount
  else if f = "error_count_max" then maxV errorCount
  else if f = "error_count_median" then median errorCount
  else if f = "rssi_mean" then mean rssi
  else if f = "rssi_std" then std rssi
  else if f = "rssi_min" then minV rssi
  else if f = "rssi_max" then maxV rssi
  else if f = "rssi_median" then median rssi
  else if f = "rssi_poor_pct" then pctAbove (rssi.map (fun v => -v)) 80
  else if f = "rssi_trend" then trendSlope rssi
  else if f = "rssi_stability" then
    if rssi = [] then 0
    else if 0 < std rssi then 100 / (1 + std rssi) else 100
  else if f = "network_latency_ms_mean" then mean latency
  else if f = "network_latency_ms_std" then std latency
  else if f = "network_latency_ms_min" then minV latency
  else if f = "network_latency_ms_max" then maxV latency
  else if f = "network_latency_ms_median" then median latency
  else if f = "latency_spike_ratio" then spikeRatio' latency
  else if f = "network_latency_ms_missing_pct" then
    let expected : ℚ := if w.windowEvents.length ≠ 0 then (w.windowEvents.length : ℚ) else 1
    (expected - (latency.length : ℚ)) / expected * 100
  else if f = "packet_loss_pct_mean" then mean packetLoss
  else if f = "packet_loss_pct_std" then std packetLoss
  else if f = "packet_loss_pct_min" then minV packetLoss
  else if f = "packet_loss_pct_max" then maxV packetLoss
  else if f = "packet_loss_pct_median" then median packetLoss
  else if f = "packet_loss_pct_high_pct" then pctAbove packetLoss 5
  else if f = "packet_loss_spike_ratio" then spikeRatio' packetLoss
  else if f = "packet_loss_trend" then trendSlope packetLoss
  else if f = "time_gap_avg" then mean (timeGaps w.timestampsMs)
  else if f = "time_gap_std" then std (timeGaps w.timestampsMs)
  else 0

/-- Presence mask of one base feature (featureAggregationService.js lines
1123-1137): derived from raw metric presence via `computePresent`, with
time-gap and window features present whenever the window has enough
events, and a default of 1 for names outside every family. -/
def presentFor (w : WindowCtx) (f : String) : ℚ :=
  if strStartsWith f "cpu_usage_" ∨ f = "cpu_spike_ratio" then computePresent w.windowEvents "cpu_usage"
  else if strStartsWith f "mem_usage_" ∨ f = "mem_spike_ratio" then computePresent w.windowEvents "mem_usage"
  else if strStartsWith f "storage_mb_" then computePresent w.windowEvents "storage_mb"
  else if strStartsWith f "battery_level_" ∨ f = "battery_drain_rate" then computePresent w.windowEvents "battery_level"
  else if strStartsWith f "temperature_" ∨ f = "temp_rate" then computePresent w.windowEvents "temperature"
  else if strStartsWith f "uptime_hrs_" then computePresent w.windowEvents "uptime_hrs"
  else if strStartsWith f "workload_level_" ∨ f = "workload_change_rate" then computePresent w.windowEvents "workload_level"
  else if strStartsWith f "error_count_" then computePresent w.windowEvents "error_count"
  else if strStartsWith f "rssi_" ∨ f = "rssi_trend" ∨ f = "rssi_stability" then computePresent w.windowEvents "rssi"
  else if strStartsWith f "network_latency_ms_" ∨ f = "latency_spike_ratio" then computePresent w.windowEvents "network_latency_ms"
  else if strStartsWith f "packet_loss_pct_" ∨ f = "packet_loss_trend" ∨ f = "packet_loss_spike_ratio" then computePresent w.windowEvents "packet_loss_pct"
  else if strStartsWith f "time_gap_" then if 1 < w.timestampsMs.length then 1 else 0
  else if strStartsWith f "window_" ∨ f = "is_weekend" then if w.windowEvents ≠ [] then 1 else 0
  else 1

end FeatAgg

/-- JavaScript object property assignment on an insertion-ordered object:
an existing key keeps its position and gets the new value, a new key is
appended. -/
def jsObjInsert (obj : List (String × ℚ)) (k : String) (v : ℚ) : List (String × ℚ) :=
  if obj.any (fun kv => kv.1 == k) then
    obj.map (fun kv => if kv.1 == k then (k, v) else kv)
  else obj ++ [(k, v)]

/-- The interleaved output object of the count-based builder
(featureAggregationService.js lines 1117-1140): for each base feature `f`
in list order, assign `out[f]` then `out[f_present]`.  (The JS coercion
`isFiniteNumber(features[f]) ? features[f] : 0` is the identity in this
`ℚ` embedding.) -/
def assembleOut (w : WindowCtx) (base : List String) : List (String × ℚ) :=
  base.foldl (fun obj f =>
    jsObjInsert (jsObjInsert obj f (FeatAgg.mlFeatureValue w f)) (f ++ "_present") (FeatAgg.presentFor w f)) []

/-- Count-based window size (`WINDOW_SIZE_EVENTS`). -/
def WINDOW_SIZE_EVENTS : Nat := 10

/-- The contract-assertion block of `buildMlInferenceVector`
(featureAggregationService.js lines 1142-1171): exact entry count, exact
key order against the interleaved expected order (the JS elementwise loop
together with the length check amounts to list equality), and binary
`_present` values; any violation is an `ML CONTRACT VIOLATION` error and
the vector is not returned.  (The JS per-value finiteness check cannot
fail in the `ℚ` embedding and the binary check is kept verbatim.) -/
def contractCheck (out : List (String × ℚ)) (expectedOrder : List String) :
    Except AppError (List (String × ℚ)) :=
  if (out.map (fun kv => kv.1)).length ≠ 154 then
    .error ⟨"ML CONTRACT VIOLATION: feature vector length mismatch in featureAggregationService.js#buildMlInferenceVector", 500⟩
  else if out.map (fun kv => kv.1) ≠ expectedOrder then
    .error ⟨"ML CONTRACT VIOLATION: feature order mismatch in featureAggregationService.js#buildMlInferenceVector", 500⟩
  else if out.any (fun kv => strEndsWith kv.1 "_present" && !(kv.2 == 0 || kv.2 == 1)) then
    .error ⟨"ML CONTRACT VIOLATION: invalid _present value in featureAggregationService.js#buildMlInferenceVector", 500⟩
  else
    .ok out

/-- The terminal provenance violation raised when any event lacks
`timestamp_provided === true` (featureAggregationService.js lines 949-956). -/
def mlProvenanceViolation : AppError :=
  ⟨"ML_CONTRACT_VIOLATION: timestamp provenance missing (expected timestamp_provided === true for all events).", 400⟩

/-- JS `buildMlInferenceVector` (featureAggregationService.js lines
937-1174).  `featureListJson` is the externally configured feature-name
list (the repository reads it from `feature_list.json`; it is not part of
the source tree), `rawEvents` the rows returned by
`fetchRecentMetricEvents`, most recent `WINDOW_SIZE_EVENTS` first.  The
final contract validation block is modelled as: length check, key-order
check (the JS elementwise loop together with the length check is exactly
list equality), and the binary `_present` value check; the per-value
finiteness check cannot fail in the `ℚ` embedding. -/
def buildMlInferenceVector (featureListJson : List String) (rawEvents : List RawEvent) :
    Except AppError (List (String × ℚ)) :=
  let baseFeatures := featureListJson.filter (fun n => !(strStartsWith n "ota_"))
  if baseFeatures.length ≠ 77 then
    .error ⟨"feature_list.json (without ota_*) must contain 77 base features", 500⟩
  else if rawEvents = [] then
    .error ⟨"No metrics events available for ML inference", 400⟩
  else if rawEvents.any (fun e => e.timestamp_provided != some true) then
    .error mlProvenanceViolation
  else
    let events := (rawEvents.filter (fun e => e.timestamp.isSome)).mergeSort
      (fun a b => a.timestamp.getD 0 ≤ b.timestamp.getD 0)
    let windowEvents := if events.length ≤ WINDOW_SIZE_EVENTS then events
      else events.drop (events.length - WINDOW_SIZE_EVENTS)
    let firstTs := windowEvents.head?.bind (fun e => e.timestamp)
    let lastTs := windowEvents.getLast?.bind (fun e => e.timestamp)
    let windowMinutes : ℚ :=
      match firstTs, lastTs with
      | some f, some l => max 0 (((l - f : Int) : ℚ) / 60000)
      | _, _ => 0
    let timestampsMs := (windowEvents.filterMap (fun e => e.timestamp)).mergeSort (fun a b => a ≤ b)
    let w : WindowCtx := ⟨windowEvents, firstTs, windowMinutes, timestampsMs⟩
    contractCheck (assembleOut w baseFeatures) (baseFeatures.flatMap (fun f => [f, f ++ "_present"]))

/-- The options object of the legacy time-based builder (its only field is
`windowMinutes`; the builder throws before reading it). -/
structure LegacyOptions where
  windowMinutes : Option ℚ := none
  deriving DecidableEq, Repr

/-- The terminal error of the disabled time-based path
(featureAggregationService.js lines 241-244). -/
def mlDisabledViolation : AppError :=
  ⟨"ML_CONTRACT_VIOLATION: Time-based ML inference is disabled. Use count-based window only.", 500⟩

/-- JS `buildFeatureVector` (featureAggregationService.js lines 241-838):
the function throws `ML_CONTRACT_VIOLATION` on its first statement, before
any query or computation; everything after the throw is dead code and is
therefore not modelled. -/
def buildFeatureVector (_deviceId : String) (_options : LegacyOptions := {}) :
    Except AppError (List (String × ℚ)) :=
  .error mlDisabledViolation

namespace Policy

/-- The result object of the policy engine: a decision and a reason. -/
structure PolicyDecision where
  decision : String
  reason : String
  deriving DecidableEq, Repr

/-- JS `otaPolicyDecision` (src/policy/policyEngine.js lines 22-51): maps a
risk level to an OTA decision through the fixed table low→allow,
medium→delay, high→block; a non-string or unrecognised input throws. -/
def otaPolicyDecision (riskLevel : JsVal) : Except String PolicyDecision :=
  match riskLevel with
  | .str s =>
    let normalized := jsToLower (jsTrim s)
    if normalized = "low" then
      .ok ⟨"allow", "System behavior within normal operating range"⟩
    else if normalized = "medium" then
      .ok ⟨"delay", "Early anomaly detected, waiting for stabilization"⟩
    else if normalized = "high" then
      .ok ⟨"block", "High anomaly risk, OTA blocked"⟩
    else
      .error "Unknown riskLevel"
  | _ => .error "Invalid riskLevel: expected string"

end Policy

namespace Infer

/-- The `data` object of a scorer response, before validation: each field
is an arbitrary JavaScript value. -/
structure UpstreamData where
  anomaly_score : JsVal := .undef
  threshold : JsVal := .undef
  soft_threshold : JsVal := .undef
  risk_level : JsVal := .undef
  deriving DecidableEq, Repr

/-- An HTTP response from the inference proxy: status code and optional
body (`none` models a falsy / non-object `data`). -/
structure UpstreamResp where
  status : Nat
  data : Option UpstreamData
  deriving DecidableEq, Repr

/-- The anomaly state the handler persists into `devices.anomaly` (the
`updated_at` wall-clock field is omitted from the embedding). -/
structure AnomalyState where
  score : ℚ
  risk_level : Option String
  decision : String
  threshold : ℚ
  soft_threshold : ℚ
  deriving DecidableEq, Repr

/-- The externally visible writes and calls of one handler invocation. -/
structure InferEffects where
  stateWrites : Nat
  historyAppends : Nat
  scorerCalled : Bool
  deriving DecidableEq, Repr

/-- The strict 2-threshold decision rule of the production inference
handler (part_013 lines 101-109). -/
def scoreDecision (score threshold softThreshold : ℚ) : String :=
  if threshold ≤ score then "block"
  else if softThreshold ≤ score then "delay"
  else "allow"

/-- JS `postAnomalyInferHandler` (anomaly controller, part_013 lines
66-162), with its I/O collaborators passed as arguments: `deviceExists`
is the result of the initial `devices.findOne`, `featureResult` the
outcome of the feature build, and `upstream` the inference-proxy response
(`none` models an unreachable scorer).  The returned effects count the
`devices.anomaly` overwrites and `anomaly_events` inserts performed. -/
def postAnomalyInferHandler (deviceExists : Bool)
    (featureResult : Except AppError (List (String × ℚ)))
    (upstream : Option UpstreamResp) :
    InferEffects × Except AppError AnomalyState :=
  if !deviceExists then
    (⟨0, 0, false⟩, .error ⟨"Device not found", 404⟩)
  else
    match featureResult with
    | .error e => (⟨0, 0, false⟩, .error e)
    | .ok _featureVector =>
      match upstream with
      | none => (⟨0, 0, true⟩, .error ⟨"Inference service unavailable", 503⟩)
      | some u =>
        if u.status ≠ 200 then (⟨0, 0, true⟩, .error ⟨"Inference service unavailable", 503⟩)
        else
          match u.data with
          | none => (⟨0, 0, true⟩, .error ⟨"Inference service unavailable", 503⟩)
          | some d =>
            match d.anomaly_score, d.threshold, d.soft_threshold with
            | .num score, .num threshold, .num softThreshold =>
              let anomalyState : AnomalyState :=
                { score := score
                  risk_level := d.risk_level.asString
                  decision := scoreDecision score threshold softThreshold
                  threshold := threshold
                  soft_threshold := softThreshold }
              (⟨1, 1, true⟩, .ok anomalyState)
            | _, _, _ => (⟨0, 0, true⟩, .error ⟨"Invalid inference response", 502⟩)

/-- The decision a handler invocation persisted, if it persisted one. -/
def persistedDecision (r : InferEffects × Except AppError AnomalyState) : Option String :=
  match r.2 with
  | .ok s => some s.decision
  | .error _ => none

end Infer

namespace Monitor

/-- An event read back from `anomaly_events` (or the legacy collections):
the four legacy timestamp field names are kept, epoch milliseconds;
`score` is `none` when missing or non-finite. -/
structure MonEvent where
  decided_at : Option Int := none
  created_at : Option Int := none
  timestamp : Option Int := none
  createdAt : Option Int := none
  score : Option ℚ := none
  risk_level : Option String := none
  action : Option String := none
  decision : Option String := none
  deriving DecidableEq, Repr

/-- JS `extractEventTime` (anomalyMonitorService.js lines 17-20): the first
present timestamp field.  (The JS `||` chain also skips a zero timestamp;
no claim involves the epoch instant itself.) -/
def extractEventTime (e : MonEvent) : Option Int :=
  e.decided_at <|> e.created_at <|> e.timestamp <|> e.createdAt

/-- JS `extractAction` (lines 22-26): the trimmed upper-cased `action`
string if non-empty, else the trimmed upper-cased `decision`, else null. -/
def extractAction (e : MonEvent) : Option String :=
  match e.action with
  | some a => if (jsTrim a).length > 0 then some (jsToUpper (jsTrim a)) else fallbackDecision e
  | none => fallbackDecision e
where
  fallbackDecision (e : MonEvent) : Option String :=
    match e.decision with
    | some d => if (jsTrim d).length > 0 then some (jsToUpper (jsTrim d)) else none
    | none => none

/-- JS `isAnomalousRisk` (lines 28-34): any non-low risk string counts as
anomalous; a missing risk does not. -/
def isAnomalousRisk (riskLevel : Option String) : Bool :=
  match riskLevel with
  | some s => jsToLower (jsTrim s) ≠ "low"
  | none => false

/-- JS `Number(x.toFixed(d))`: round to `d` decimal digits.  (Modelled as
exact decimal rounding; the claims below evaluate it away from ties.) -/
def jsToFixed (q : ℚ) (d : Nat) : ℚ :=
  (round (q * (10 ^ d : ℚ)) : ℚ) / (10 ^ d : ℚ)

/-- The per-window statistics record. -/
structure WindowStats where
  count : Nat
  avg_score : Option ℚ
  max_score : Option ℚ
  anomaly_ratio' : ℚ
  block_ratio' : ℚ
  deriving DecidableEq, Repr

/-- The events of a window: those whose extracted time is at or after the
window start. -/
def windowFilter (events : List MonEvent) (windowStartMs : Int) : List MonEvent :=
  events.filter (fun e =>
    match extractEventTime e with
    | some t => windowStartMs ≤ t
    | none => false)

/-- JS `computeWindowStats` (anomalyMonitorService.js lines 36-63). -/
def computeWindowStats (events : List MonEvent) (windowStartMs : Int) : WindowStats :=
  let windowEvents := windowFilter events windowStartMs
  let count := windowEvents.length
  let scores := windowEvents.filterMap (fun e => e.score)
  let avg : Option ℚ := if scores = [] then none else some (scores.sum / (scores.length : ℚ))
  let maxS : Option ℚ := if scores = [] then none else some (FeatAgg.maxV scores)
  let anomalyCount := (windowEvents.filter (fun e => isAnomalousRisk e.risk_level)).length
  let blockCount := (windowEvents.filter (fun e => extractAction e == some "BLOCK")).length
  let anomalyRatio : ℚ := if 0 < count then (anomalyCount : ℚ) / (count : ℚ) else 0
  let blockRatio : ℚ := if 0 < count then (blockCount : ℚ) / (count : ℚ) else 0
  { count := count
    avg_score := avg.map (fun a => jsToFixed a 3)
    max_score := maxS.map (fun m => jsToFixed m 3)
    anomaly_ratio' := jsToFixed anomalyRatio 2
    block_ratio' := jsToFixed blockRatio 2 }

/-- JS `classifyStateFromWindow` (lines 100-104), applied to the 15-minute
window statistics. -/
def classifyStateFromWindow (s : WindowStats) : String :=
  if 3/5 ≤ s.block_ratio' ∨ 3/5 ≤ s.anomaly_ratio' then "persistently_anomalous"
  else if 1/5 ≤ s.anomaly_ratio' then "borderline"
  else "normal"

end Monitor

namespace Ota

/-- A device document, restricted to the fields the firmware operations
read: the device-level status, the model / deviceType used for firmware
matching, the nested `firmware{}` sub-document, and the persisted
`anomaly.decision` written by the inference handler (carried here to make
explicit what the assignment guard does and does not consult). -/
structure DeviceRec where
  status : Option String := none
  model : Option String := none
  deviceType : Option String := none
  firmware_currentVersion : Option String := none
  firmware_desiredVersion : Option String := none
  firmware_status : Option String := none
  anomaly_decision : Option String := none
  deriving DecidableEq, Repr

/-- The result of `buildOTARecommendation` (src/services/otaDecisionService.js):
an action with reasons and a confidence. -/
structure OtaRec where
  action : String
  reason : List String := []
  confidence : Option ℚ := none
  deriving DecidableEq, Repr

/-- An immutable OTA event appended by `logOTAEvent`. -/
structure OtaEvent where
  firmwareVersion : String
  action : String
  source : String
  reason : Option String := none
  decision : Option String := none
  deriving DecidableEq, Repr

/-- Outcome of processing one device inside `assignOTA`: whether the
assignment was accepted, the OTA event appended (if any), and the
`firmware.desiredVersion` / `firmware.status` written (if any). -/
structure AssignResult where
  success : Bool
  error : Option String := none
  event : Option OtaEvent := none
  newDesiredVersion : Option String := none
  newStatus : Option String := none
  deriving DecidableEq, Repr

/-- JS `assignOTA`, per-device body (src/services/otaService.js lines
46-195), after the firmware document has been found and its deviceType
resolved.  `recommendation` is the outcome of the fresh
`getAnomalyAnalysis` → `buildAnomalyExplanations` →
`buildOTARecommendation` chain; `none` models that chain throwing, in
which case the fail-closed default `delay` applies.  The guard reads
`recommendation` only — the device's persisted `anomaly_decision` is not
consulted anywhere in this function. -/
def processAssignDevice (device : DeviceRec) (firmwareVersion : String)
    (firmwareDeviceType : String) (recommendation : Option OtaRec) : AssignResult :=
  let deviceModel := device.model <|> device.deviceType
  if deviceModel ≠ some firmwareDeviceType then
    { success := false, error := some "Device model does not match firmware deviceType" }
  else if (match device.firmware_currentVersion with
           | some cv => strLt firmwareVersion cv
           | none => false) then
    { success := false, error := some "Cannot assign firmware version older than current version" }
  else if device.firmware_status.getD "idle" = "updating" then
    { success := false, error := some "Cannot assign firmware while device is updating" }
  else
    let otaDecision := recommendation.getD { action := "delay" }
    if otaDecision.action = "block" then
      { success := false, error := some "OTA assignment blocked" }
    else
      let reasonJoined := String.intercalate ", " otaDecision.reason
      let event : OtaEvent :=
        { firmwareVersion := firmwareVersion
          action := "assign"
          source := "admin"
          reason := if otaDecision.action = "delay" then
              some ("OTA delayed: " ++ (if reasonJoined = "" then "Device unstable" else reasonJoined))
            else none
          decision := some otaDecision.action }
      let firmwareStatus := if otaDecision.action = "delay" then "pending" else "assigned"
      { success := true
        event := some event
        newDesiredVersion := some firmwareVersion
        newStatus := some firmwareStatus }

/-- The firmware fields of the device after an accepted progress report,
together with the OTA event appended. -/
structure ReportResult where
  firmware_currentVersion : Option String
  firmware_desiredVersion : Option String
  firmware_status : Option String
  event : OtaEvent
  deriving DecidableEq, Repr

/-- The `otaStatus → ota_events.action` map of the report handler. -/
def otaStatusToAction (s : String) : String :=
  if s = "downloading" then "download"
  else if s = "updating" then "update"
  else if s = "success" then "success"
  else "fail"

/-- The allowed-next-state table of the report handler. -/
def allowedNext (current : String) : Option (List String) :=
  if current = "assigned" then some ["downloading"]
  else if current = "downloading" then some ["updating"]
  else if current = "updating" then some ["success", "failed"]
  else none

/-- JS `reportDeviceFirmware` (device service, part_021 lines 423-575),
after the device lookup: validates the reported `otaStatus`, enforces the
transition table, and on `success` requires the reported version to equal
`desiredVersion` before setting `currentVersion` and clearing
`desiredVersion`.  All guards run before any write; the returned record is
the post-update firmware state plus the appended OTA event. -/
def reportDeviceFirmware (device : DeviceRec) (reportedFirmwareVersion : String)
    (otaStatus : String) : Except AppError ReportResult :=
  if device.status = some "inactive" ∨ device.status = some "disabled" then
    .error ⟨"Device is not active", 403⟩
  else if ¬ (otaStatus ∈ ["downloading", "updating", "success", "failed"]) then
    .error ⟨"otaStatus is required and must be one of: downloading, updating, success, failed", 400⟩
  else if device.firmware_status.getD "idle" ∈ ["idle", "pending", "success", "failed"] then
    .error ⟨"Invalid OTA state transition: cannot report OTA progress in this state", 400⟩
  else
    match allowedNext (device.firmware_status.getD "idle") with
      | none => .error ⟨"Invalid OTA state transition: current status does not allow OTA reports", 400⟩
      | some allowed =>
        if ¬ (otaStatus ∈ allowed) then
          .error ⟨"Invalid OTA state transition: transition not allowed", 400⟩
        else
          match device.firmware_desiredVersion with
          | none =>
            if otaStatus = "success" then
              .error ⟨"Cannot report success without an assigned desiredVersion", 400⟩
            else if otaStatus = "downloading" ∨ otaStatus = "updating" then
              .error ⟨"Cannot report progress without an assigned desiredVersion", 400⟩
            else
              .error ⟨"Cannot log OTA event without an assigned desiredVersion", 400⟩
          | some dv =>
            let event : OtaEvent :=
              { firmwareVersion := dv
                action := otaStatusToAction otaStatus
                source := "device" }
            if otaStatus = "failed" then
              .ok ⟨device.firmware_currentVersion, device.firmware_desiredVersion, some "failed", event⟩
            else if otaStatus = "success" then
              if reportedFirmwareVersion ≠ dv then
                .error ⟨"Reported firmware version does not match desired version", 400⟩
              else
                .ok ⟨some reportedFirmwareVersion, none, some "success", event⟩
            else
              .ok ⟨device.firmware_currentVersion, device.firmware_desiredVersion, some otaStatus, event⟩

end Ota

namespace Samples

/-- A 77-name base-feature list (the configured list is external to the
repository; names outside every statistic family read as 0 with presence
mask 1, which exercises the assembly and validation path). -/
def base77 : List String := (List.range 77).map (fun i => "f" ++ toString (i + 1))

/-- One raw event with timestamp provenance and a single observed metric. -/
def evProvenanced : RawEvent :=
  { timestamp := some 0, timestamp_provided := some true, metrics := [("cpu_usage", some 0)] }

/-- One raw event lacking timestamp provenance. -/
def evUnprovenanced : RawEvent :=
  { timestamp := some 0, timestamp_provided := none, metrics := [("cpu_usage", some 5)] }

/-- A well-formed scorer response whose risk level is `low` while the
score exceeds the hard threshold. -/
def upLowHighScore : Infer.UpstreamResp :=
  { status := 200
    data := some { anomaly_score := .num 9, threshold := .num 5,
                   soft_threshold := .num 3, risk_level := .str "low" } }

/-- A scorer response with valid numerics but a numeric (non-string)
`risk_level`. -/
def upNumericRisk : Infer.UpstreamResp :=
  { status := 200
    data := some { anomaly_score := .num 1, threshold := .num 2,
                   soft_threshold := .num 3, risk_level := .num 42 } }

/-- A scorer response whose `threshold` is missing. -/
def upMissingThreshold : Infer.UpstreamResp :=
  { status := 200
    data := some { anomaly_score := .num 1, threshold := .undef,
                   soft_threshold := .num 3, risk_level := .str "low" } }

/-- Three monitor events inside a window, two of them `BLOCK`. -/
def threeEventsTwoBlock : List Monitor.MonEvent :=
  [ { decided_at := some 1000, action := some "BLOCK", risk_level := some "high", score := some 8 },
    { decided_at := some 2000, action := some "BLOCK", risk_level := some "high", score := some 9 },
    { decided_at := some 3000, decision := some "allow", risk_level := some "low", score := some 1 } ]

/-- A device whose persisted anomaly decision is `block` but which is
otherwise assignable. -/
def devPersistedBlock : Ota.DeviceRec :=
  { model := some "esp32"
    firmware_currentVersion := some "1.0.0"
    firmware_status := some "idle"
    anomaly_decision := some "block" }

/-- A device mid-update (`firmware.status = updating`). -/
def devUpdating : Ota.DeviceRec :=
  { model := some "esp32"
    firmware_currentVersion := some "1.0.0"
    firmware_desiredVersion := some "1.1.0"
    firmware_status := some "updating" }

/-- A device legally reporting: status `updating` with a desired version. -/
def devReporting : Ota.DeviceRec :=
  { model := some "esp32"
    firmware_currentVersion := some "1.0.0"
    firmware_desiredVersion := some "1.1.0"
    firmware_status := some "updating" }

/-- The expected output vector for `base77` over `[evProvenanced]`: every
unknown-family feature reads 0 with presence mask 1. -/
def vec154 : List (String × ℚ) :=
  (List.range 77).flatMap (fun i =>
    [("f" ++ toString (i + 1), 0), ("f" ++ toString (i + 1) ++ "_present", 1)])

end Samples

/-!
Theorems settling the claims.
-/

/-- C10: for every device identifier and every options argument, the
legacy time-based builder `buildFeatureVector` unconditionally fails with
the `ML_CONTRACT_VIOLATION` error before doing anything, so every caller
that invokes it — including the part_013 inference handler, which imports
`buildFeatureVector` rather than the count-based builder — gets no
feature vector, calls no scorer, and persists nothing. -/
theorem C10_legacy_builder_always_throws :
    (∀ d o, buildFeatureVector d o = .error mlDisabledViolation) ∧
    (∀ de d o up,
      (Infer.postAnomalyInferHandler de (buildFeatureVector d o) up).1 = ⟨0, 0, false⟩ ∧
      isOkB (Infer.postAnomalyInferHandler de (buildFeatureVector d o) up).2 = false) := by
  refine ⟨fun d o => rfl, fun de d o up => ?_⟩
  cases de <;> simp [Infer.postAnomalyInferHandler, buildFeatureVector, isOkB]

/-- C1: the production inference handler performs exactly one anomaly-state
overwrite and exactly one history append when it succeeds, and performs
neither write on any failure path (device not found, feature-build error,
scorer unreachable or non-200 or bodyless, non-numeric scorer fields). -/
theorem C1_infer_write_discipline :
    ∀ de fr up,
      (∀ s, (Infer.postAnomalyInferHandler de fr up).2 = .ok s →
          (Infer.postAnomalyInferHandler de fr up).1 = ⟨1, 1, true⟩) ∧
      (∀ e, (Infer.postAnomalyInferHandler de fr up).2 = .error e →
          (Infer.postAnomalyInferHandler de fr up).1.stateWrites = 0 ∧
          (Infer.postAnomalyInferHandler de fr up).1.historyAppends = 0) := by
  intro de fr up
  cases de with
  | false => simp [Infer.postAnomalyInferHandler]
  | true =>
    cases fr with
    | error e => simp [Infer.postAnomalyInferHandler]
    | ok fv =>
      cases up with
      | none => simp [Infer.postAnomalyInferHandler]
      | some u =>
        by_cases hs : u.status = 200
        · cases hd : u.data with
          | none => simp [Infer.postAnomalyInferHandler, hs, hd]
          | some d =>
            cases hsc : d.anomaly_score <;> cases hth : d.threshold <;>
              cases hst : d.soft_threshold <;>
              simp [Infer.postAnomalyInferHandler, hs, hd, hsc, hth, hst]
        · simp [Infer.postAnomalyInferHandler, hs]

/-- Witness for C1 at concrete inputs: a successful call writes (1, 1); a
device-not-found call writes (0, 0). -/
theorem C1_witness :
    (Infer.postAnomalyInferHandler true (.ok []) (some Samples.upLowHighScore)).1 = ⟨1, 1, true⟩ ∧
    (Infer.postAnomalyInferHandler false (.ok []) (some Samples.upLowHighScore)).1.stateWrites = 0 ∧
    (Infer.postAnomalyInferHandler false (.ok []) (some Samples.upLowHighScore)).1.historyAppends = 0 := by
  refine ⟨?_, ?_⟩
  · exact (C1_infer_write_discipline true (.ok []) (some Samples.upLowHighScore)).1
      ⟨9, some "low", "block", 5, 3⟩ (by decide)
  · exact (C1_infer_write_discipline false (.ok []) (some Samples.upLowHighScore)).2
      ⟨"Device not found", 404⟩ (by decide)

/-- C2 counterexample: a scorer result with `risk_level = "low"` but a
score above the hard threshold persists decision `block`, while the fixed
risk-level table (`otaPolicyDecision`) maps `low` to `allow` — so the
persisted decision is not the fixed-table image of `risk_level`. -/
theorem C2_counterexample :
    (Infer.postAnomalyInferHandler true (.ok []) (some Samples.upLowHighScore)).2 =
      .ok ⟨9, some "low", "block", 5, 3⟩ ∧
    Policy.otaPolicyDecision (.str "low") =
      .ok ⟨"allow", "System behavior within normal operating range"⟩ ∧
    ("block" : String) ≠ "allow" := by
  refine ⟨by decide, by decide, by decide⟩

/-- C2 amended: the decision persisted by the production inference handler
is the strict 2-threshold function of the numeric score (score ≥ threshold
→ block, else score ≥ soft_threshold → delay, else allow) and is
independent of `risk_level`; the risk-level table lives in the separate
policy engine (`otaPolicyDecision`) and is not consulted on this path. -/
theorem C2_decision_from_thresholds :
    (∀ de fr up s, (Infer.postAnomalyInferHandler de fr up).2 = .ok s →
        s.decision = Infer.scoreDecision s.score s.threshold s.soft_threshold) ∧
    (∀ de fr (st : Nat) (da : Infer.UpstreamData) (rl1 rl2 : JsVal),
        Infer.persistedDecision
            (Infer.postAnomalyInferHandler de fr (some ⟨st, some { da with risk_level := rl1 }⟩)) =
          Infer.persistedDecision
            (Infer.postAnomalyInferHandler de fr (some ⟨st, some { da with risk_level := rl2 }⟩))) := by
  constructor
  · intro de fr up s h
    cases de with
    | false => simp [Infer.postAnomalyInferHandler] at h
    | true =>
      cases fr with
      | error e => simp [Infer.postAnomalyInferHandler] at h
      | ok fv =>
        cases up with
        | none => simp [Infer.postAnomalyInferHandler] at h
        | some u =>
          by_cases hs : u.status = 200
          · cases hd : u.data with
            | none => simp [Infer.postAnomalyInferHandler, hs, hd] at h
            | some d =>
              cases hsc : d.anomaly_score <;> cases hth : d.threshold <;>
                cases hst : d.soft_threshold <;>
                simp_all [Infer.postAnomalyInferHandler, hs, hd, hsc, hth, hst]
              subst h; rfl
          · simp [Infer.postAnomalyInferHandler, hs] at h
  · intro de fr st da rl1 rl2
    cases de with
    | false => rfl
    | true =>
      cases fr with
      | error e => rfl
      | ok fv =>
        by_cases hs : st = 200
        · cases hsc : da.anomaly_score <;> cases hth : da.threshold <;>
            cases hst : da.soft_threshold <;>
            simp [Infer.postAnomalyInferHandler, Infer.persistedDecision, hs, hsc, hth, hst]
        · simp [Infer.postAnomalyInferHandler, Infer.persistedDecision, hs]

/-- Witness for C2 amended at a concrete successful call. -/
theorem C2_witness :
    (⟨9, some "low", "block", 5, 3⟩ : Infer.AnomalyState).decision =
      Infer.scoreDecision 9 5 3 :=
  C2_decision_from_thresholds.1 true (.ok []) (some Samples.upLowHighScore)
    ⟨9, some "low", "block", 5, 3⟩ (by decide)

/-- C5 counterexample: a scorer response with valid numerics but a numeric
(non-string) `risk_level` is not rejected: the handler succeeds and
silently persists `risk_level = null`. -/
theorem C5_counterexample :
    isOkB (Infer.postAnomalyInferHandler true (.ok []) (some Samples.upNumericRisk)).2 = true ∧
    (Infer.postAnomalyInferHandler true (.ok []) (some Samples.upNumericRisk)).2 =
      .ok ⟨1, none, "allow", 2, 3⟩ := by
  refine ⟨by decide, by decide⟩

/-- C5 amended: before persisting, the handler validates that `score`,
`threshold` and `soft_threshold` are numbers — any violation yields the
502 "Invalid inference response" error with no writes — but `risk_level`
is not validated against the low/medium/high vocabulary: whatever is
persisted is `risk_level` coerced through `typeof === 'string' ? v : null`,
so a non-string risk level is silently defaulted to null. -/
theorem C5_numeric_validation_risk_defaulted :
    (∀ fv da, ¬(da.anomaly_score.isNumber = true ∧ da.threshold.isNumber = true ∧
          da.soft_threshold.isNumber = true) →
        Infer.postAnomalyInferHandler true (.ok fv) (some ⟨200, some da⟩) =
          (⟨0, 0, true⟩, .error ⟨"Invalid inference response", 502⟩)) ∧
    (∀ fv da s, (Infer.postAnomalyInferHandler true (.ok fv) (some ⟨200, some da⟩)).2 = .ok s →
        s.risk_level = da.risk_level.asString) := by
  constructor
  · intro fv da hnot
    cases hsc : da.anomaly_score <;> cases hth : da.threshold <;>
      cases hst : da.soft_threshold <;>
      simp_all [Infer.postAnomalyInferHandler, JsVal.isNumber]
  · intro fv da s h
    cases hsc : da.anomaly_score <;> cases hth : da.threshold <;>
      cases hst : da.soft_threshold <;>
      simp_all [Infer.postAnomalyInferHandler]
    subst h; rfl

/-- Witness for C5 amended: a missing `threshold` is rejected with 502 and
no writes; a numeric `risk_level` persists as null. -/
theorem C5_witness :
    Infer.postAnomalyInferHandler true (.ok []) (some Samples.upMissingThreshold) =
      (⟨0, 0, true⟩, .error ⟨"Invalid inference response", 502⟩) ∧
    (⟨1, none, "allow", 2, 3⟩ : Infer.AnomalyState).risk_level = (JsVal.num 42).asString := by
  constructor
  · exact C5_numeric_validation_risk_defaulted.1 []
      { anomaly_score := .num 1, threshold := .undef, soft_threshold := .num 3,
        risk_level := .str "low" } (by decide)
  · exact C5_numeric_validation_risk_defaulted.2 []
      { anomaly_score := .num 1, threshold := .num 2, soft_threshold := .num 3,
        risk_level := .num 42 } ⟨1, none, "allow", 2, 3⟩ (by decide)

/-- Inversion of the contract-assertion block: a vector it returns has
exactly 154 entries, keys exactly equal to the expected interleaved order,
and every `_present` value binary. -/
theorem contractCheck_ok {out o : List (String × ℚ)} {exp : List String}
    (h : contractCheck out exp = .ok o) :
    o.length = 154 ∧ o.map (fun kv => kv.1) = exp ∧
    (∀ kv ∈ o, strEndsWith kv.1 "_present" = true → kv.2 = 0 ∨ kv.2 = 1) := by
  unfold contractCheck at h
  split at h
  · simp at h
  case isFalse h1 =>
    split at h
    · simp at h
    case isFalse h2 =>
      split at h
      · simp at h
      case isFalse h3 =>
        obtain rfl : out = o := Except.ok.inj h
        refine ⟨by simpa using not_not.mp h1, not_not.mp h2, ?_⟩
        intro kv hkv hend
        rw [Bool.not_eq_true, List.any_eq_false] at h3
        have hkv' := h3 kv hkv
        simp [hend] at hkv'
        exact or_iff_not_imp_left.mpr hkv'

/-- C3: whenever the count-based builder returns a vector, that vector has
exactly 2N = 154 entries (the base list, `ota_*` removed, must have
N = 77), its keys are exactly the interleaved `f, f_present` order of the
base list, and every `_present` value is exactly 0 or 1; any violation of
the assertions surfaces as an `ML CONTRACT VIOLATION` error instead of a
returned vector (every value is a finite number by construction of the
`ℚ` embedding). -/
theorem C3_contract_on_success :
    ∀ fl evs out, buildMlInferenceVector fl evs = .ok out →
      out.length = 154 ∧
      (fl.filter (fun n => !(strStartsWith n "ota_"))).length = 77 ∧
      out.map (fun kv => kv.1) =
        (fl.filter (fun n => !(strStartsWith n "ota_"))).flatMap (fun f => [f, f ++ "_present"]) ∧
      (∀ kv ∈ out, strEndsWith kv.1 "_present" = true → kv.2 = 0 ∨ kv.2 = 1) := by
  intro fl evs out h
  unfold buildMlInferenceVector at h
  by_cases c1 : (fl.filter (fun n => !(strStartsWith n "ota_"))).length = 77
  · by_cases c2 : evs = []
    · simp [c1, c2] at h
    · by_cases c3 : evs.any (fun e => e.timestamp_provided != some true) = true
      · simp [c1, c2, c3] at h
      · simp only [c1, c2, c3] at h
        simp only [ne_eq, not_true_eq_false, if_false, if_neg c2, if_neg c3] at h
        obtain ⟨hlen, horder, hpres⟩ := contractCheck_ok h
        exact ⟨hlen, c1, horder, hpres⟩
  · simp [c1] at h

set_option maxRecDepth 4000

/-- Witness for C3 at a concrete 77-name list and one-event window. -/
theorem C3_witness :
    Samples.vec154.length = 154 ∧
    (Samples.base77.filter (fun n => !(strStartsWith n "ota_"))).length = 77 ∧
    Samples.vec154.map (fun kv => kv.1) =
      (Samples.base77.filter (fun n => !(strStartsWith n "ota_"))).flatMap
        (fun f => [f, f ++ "_present"]) ∧
    (∀ kv ∈ Samples.vec154, strEndsWith kv.1 "_present" = true → kv.2 = 0 ∨ kv.2 = 1) :=
  C3_contract_on_success Samples.base77 [Samples.evProvenanced] Samples.vec154 (by decide)

/-- C4: a window in which any event lacks `timestamp_provided === true`
makes the count-based feature build fail with the terminal
`ML_CONTRACT_VIOLATION` provenance error, and a handler run whose feature
build failed never calls the scorer and persists nothing. -/
theorem C4_provenance_terminal :
    ∀ fl evs,
      (fl.filter (fun n => !(strStartsWith n "ota_"))).length = 77 →
      evs ≠ [] →
      (∃ e ∈ evs, e.timestamp_provided ≠ some true) →
      buildMlInferenceVector fl evs = .error mlProvenanceViolation ∧
      (∀ de up,
        (Infer.postAnomalyInferHandler de (buildMlInferenceVector fl evs) up).1 = ⟨0, 0, false⟩ ∧
        isOkB (Infer.postAnomalyInferHandler de (buildMlInferenceVector fl evs) up).2 = false) := by
  intro fl evs h77 hne hex
  have hany : evs.any (fun e => e.timestamp_provided != some true) = true := by
    rcases hex with ⟨e, he, hne2⟩
    exact List.any_eq_true.mpr ⟨e, he, by simpa [bne_iff_ne] using hne2⟩
  have hbuild : buildMlInferenceVector fl evs = .error mlProvenanceViolation := by
    unfold buildMlInferenceVector
    simp [h77, hne, hany]
  refine ⟨hbuild, fun de up => ?_⟩
  rw [hbuild]
  cases de <;> simp [Infer.postAnomalyInferHandler, isOkB]

/-- Witness for C4 at a concrete unprovenanced event. -/
theorem C4_witness :
    buildMlInferenceVector Samples.base77 [Samples.evUnprovenanced] = .error mlProvenanceViolation ∧
    (Infer.postAnomalyInferHandler true
        (buildMlInferenceVector Samples.base77 [Samples.evUnprovenanced])
        (some Samples.upLowHighScore)).1 = ⟨0, 0, false⟩ ∧
    isOkB (Infer.postAnomalyInferHandler true
        (buildMlInferenceVector Samples.base77 [Samples.evUnprovenanced])
        (some Samples.upLowHighScore)).2 = false := by
  have h := C4_provenance_terminal Samples.base77 [Samples.evUnprovenanced]
    (by decide) (by decide) (by decide)
  exact ⟨h.1, (h.2 true (some Samples.upLowHighScore)).1, (h.2 true (some Samples.upLowHighScore)).2⟩

/-- C6: for every window and every canonical metric key, a metric observed
as a finite number in at least one window event (even with value 0) has
presence mask 1; a metric never observed has presence mask 0 and every
statistic computed over its (empty) value list — mean, standard deviation,
min, max, median, percentage above any threshold, spike ratio, trend
slope, delta — equals 0 (never NaN: the helpers return the rational 0 on
an empty list). -/
theorem C6_presence_and_empty_stats :
    ∀ (events : List RawEvent) (rawKey : String),
      ((∃ e ∈ events, (normalizeRawMetrics e.metrics rawKey).isSome = true) →
          computePresent events rawKey = 1) ∧
      ((∀ e ∈ events, normalizeRawMetrics e.metrics rawKey = none) →
          computePresent events rawKey = 0 ∧
          metricValues events rawKey = [] ∧
          FeatAgg.mean (metricValues events rawKey) = 0 ∧
          FeatAgg.std (metricValues events rawKey) = 0 ∧
          FeatAgg.minV (metricValues events rawKey) = 0 ∧
          FeatAgg.maxV (metricValues events rawKey) = 0 ∧
          FeatAgg.median (metricValues events rawKey) = 0 ∧
          (∀ t, FeatAgg.pctAbove (metricValues events rawKey) t = 0) ∧
          FeatAgg.spikeRatio' (metricValues events rawKey) = 0 ∧
          FeatAgg.trendSlope (metricValues events rawKey) = 0 ∧
          FeatAgg.delta (metricValues events rawKey) = 0) := by
  intro events rawKey
  constructor
  · rintro ⟨e, he, hs⟩
    unfold computePresent
    rw [if_pos (List.any_eq_true.mpr ⟨e, he, hs⟩)]
  · intro hall
    have hmv : metricValues events rawKey = [] := by
      unfold metricValues
      rw [List.filterMap_eq_nil_iff]
      exact hall
    have hcp : computePresent events rawKey = 0 := by
      unfold computePresent
      rw [if_neg]
      intro hany
      obtain ⟨e, he, hs⟩ := List.any_eq_true.mp hany
      rw [hall e he] at hs
      simp at hs
    refine ⟨hcp, hmv, ?_, ?_, ?_, ?_, ?_, ?_, ?_, ?_, ?_⟩ <;>
      first
        | (rw [hmv]; rfl)
        | (intro t; rw [hmv]; rfl)

/-- Witness for C6: a window whose only event reports `cpu_usage = 0` still
has `cpu_usage` present (mask 1), while the never-observed `rssi` metric
has mask 0 and zero statistics. -/
theorem C6_witness :
    computePresent [Samples.evProvenanced] "cpu_usage" = 1 ∧
    computePresent [Samples.evProvenanced] "rssi" = 0 ∧
    FeatAgg.mean (metricValues [Samples.evProvenanced] "rssi") = 0 ∧
    FeatAgg.std (metricValues [Samples.evProvenanced] "rssi") = 0 ∧
    FeatAgg.median (metricValues [Samples.evProvenanced] "rssi") = 0 := by
  have h1 := (C6_presence_and_empty_stats [Samples.evProvenanced] "cpu_usage").1 (by decide)
  have h2 := (C6_presence_and_empty_stats [Samples.evProvenanced] "rssi").2 (by decide)
  exact ⟨h1, h2.1, h2.2.2.1, h2.2.2.2.1, h2.2.2.2.2.2.1⟩

/-- C7: firmware assignment is rejected (with no event and no device
write) whenever the current firmware status is `updating`, and whenever
the target version is lexicographically less than the device's current
version; a `success` progress report is rejected whenever the reported
version differs from `desiredVersion`, and an accepted `success` report
implies the reported version equals `desiredVersion`, sets
`currentVersion` to it and clears `desiredVersion`. -/
theorem C7_firmware_state_guards :
    (∀ device fv ft rec, Ota.DeviceRec.firmware_status device = some "updating" →
        (Ota.processAssignDevice device fv ft rec).success = false ∧
        (Ota.processAssignDevice device fv ft rec).event = none ∧
        (Ota.processAssignDevice device fv ft rec).newDesiredVersion = none ∧
        (Ota.processAssignDevice device fv ft rec).newStatus = none) ∧
    (∀ device fv ft rec cv, Ota.DeviceRec.firmware_currentVersion device = some cv →
        strLt fv cv = true →
        (Ota.processAssignDevice device fv ft rec).success = false ∧
        (Ota.processAssignDevice device fv ft rec).event = none ∧
        (Ota.processAssignDevice device fv ft rec).newDesiredVersion = none ∧
        (Ota.processAssignDevice device fv ft rec).newStatus = none) ∧
    (∀ device rv, (∀ dv, Ota.DeviceRec.firmware_desiredVersion device = some dv → rv ≠ dv) →
        isOkB (Ota.reportDeviceFirmware device rv "success") = false) ∧
    (∀ device rv r, Ota.reportDeviceFirmware device rv "success" = .ok r →
        Ota.DeviceRec.firmware_desiredVersion device = some rv ∧
        r.firmware_currentVersion = some rv ∧
        r.firmware_desiredVersion = none ∧
        r.firmware_status = some "success") := by
  refine ⟨?_, ?_, ?_, ?_⟩
  · intro device fv ft rec h
    unfold Ota.processAssignDevice
    split_ifs <;> simp_all <;> (split <;> simp)
  · intro device fv ft rec cv hcv hlt
    unfold Ota.processAssignDevice
    rw [hcv]
    split_ifs <;> simp_all <;> (split <;> simp)
  · intro device rv hne
    rw [Ota.reportDeviceFirmware]
    by_cases c0 : device.status = some "inactive" ∨ device.status = some "disabled"
    · rw [if_pos c0]; rfl
    · rw [if_neg c0, if_neg (by decide)]
      by_cases c2 : Option.getD (Ota.DeviceRec.firmware_status device) "idle" ∈
          ["idle", "pending", "success", "failed"]
      · rw [if_pos c2]; rfl
      · rw [if_neg c2]
        cases hall : Ota.allowedNext (Option.getD (Ota.DeviceRec.firmware_status device) "idle") with
        | none => rfl
        | some allowed =>
          dsimp only []
          by_cases c3 : ("success" : String) ∈ allowed
          · rw [if_neg (not_not_intro c3)]
            cases hdv : Ota.DeviceRec.firmware_desiredVersion device with
            | none => rfl
            | some dv =>
              dsimp only []
              rw [if_neg (by decide : ¬("success" : String) = "failed"),
                if_pos (rfl : ("success" : String) = "success"),
                if_pos (hne dv hdv)]
              rfl
          · rw [if_pos c3]; rfl
  · intro device rv r h
    rw [Ota.reportDeviceFirmware] at h
    by_cases c0 : device.status = some "inactive" ∨ device.status = some "disabled"
    · rw [if_pos c0] at h; exact absurd h (by simp)
    · rw [if_neg c0, if_neg (by decide)] at h
      by_cases c2 : Option.getD (Ota.DeviceRec.firmware_status device) "idle" ∈
          ["idle", "pending", "success", "failed"]
      · rw [if_pos c2] at h; exact absurd h (by simp)
      · rw [if_neg c2] at h
        cases hall : Ota.allowedNext (Option.getD (Ota.DeviceRec.firmware_status device) "idle") with
        | none => rw [hall] at h; exact absurd h (by simp)
        | some allowed =>
          rw [hall] at h
          dsimp only [] at h
          by_cases c3 : ("success" : String) ∈ allowed
          · rw [if_neg (not_not_intro c3)] at h
            cases hdv : Ota.DeviceRec.firmware_desiredVersion device with
            | none => rw [hdv] at h; exact absurd h (by simp)
            | some dv =>
              rw [hdv] at h
              dsimp only [] at h
              by_cases c4 : rv = dv
              · subst c4
                simp at h
                refine ⟨rfl, ?_, ?_, ?_⟩ <;> rw [← h] <;> rfl
              · simp [c4] at h
          · rw [if_pos c3] at h; exact absurd h (by simp)

/-- Witness for C7 at concrete devices: an updating device rejects
assignment; a downgrade rejects assignment; a mismatched success report is
rejected; an accepted success report matched the desired version. -/
theorem C7_witness :
    (Ota.processAssignDevice Samples.devUpdating "1.2.0" "esp32" none).success = false ∧
    (Ota.processAssignDevice Samples.devPersistedBlock "0.9.0" "esp32" none).success = false ∧
    isOkB (Ota.reportDeviceFirmware Samples.devReporting "2.0.0" "success") = false ∧
    Ota.DeviceRec.firmware_desiredVersion Samples.devReporting = some "1.1.0" := by
  refine ⟨?_, ?_, ?_, ?_⟩
  · exact (C7_firmware_state_guards.1 Samples.devUpdating "1.2.0" "esp32" none (by decide)).1
  · exact (C7_firmware_state_guards.2.1 Samples.devPersistedBlock "0.9.0" "esp32" none
      "1.0.0" (by decide) (by decide)).1
  · exact C7_firmware_state_guards.2.2.1 Samples.devReporting "2.0.0" (by decide)
  · exact (C7_firmware_state_guards.2.2.2 Samples.devReporting "1.1.0"
      ⟨some "1.1.0", none, some "success", ⟨"1.1.0", "success", "device", none, none⟩⟩
      (by decide)).1

/-- C8 counterexample: a device whose persisted anomaly decision is
`block` is still assigned (status `assigned`) when the freshly computed
recommendation is `allow` — the assignment guard does not consult the
persisted decision. -/
theorem C8_counterexample :
    (Ota.processAssignDevice Samples.devPersistedBlock "1.1.0" "esp32"
        (some { action := "allow" })).success = true ∧
    (Ota.processAssignDevice Samples.devPersistedBlock "1.1.0" "esp32"
        (some { action := "allow" })).newStatus = some "assigned" ∧
    Ota.DeviceRec.anomaly_decision Samples.devPersistedBlock = some "block" := by
  refine ⟨by decide, by decide, by decide⟩

/-- C8 amended: the assignment guard consults the freshly computed
rule-based OTA recommendation (not the device's persisted anomaly
decision, on which the outcome does not depend), with fail-closed default
`delay` when the recommendation cannot be obtained; a `block`
recommendation rejects the assignment with no event and no write; a
`delay` recommendation (in particular the fail-closed default) proceeds,
lands the device in `pending`, and records the guard reason on the logged
event. -/
theorem C8_assignment_gate :
    (∀ (device : Ota.DeviceRec) fv ft rec (a1 a2 : Option String),
        Ota.processAssignDevice { device with anomaly_decision := a1 } fv ft rec =
          Ota.processAssignDevice { device with anomaly_decision := a2 } fv ft rec) ∧
    (∀ device fv ft (rec : Option Ota.OtaRec),
        (rec.getD { action := "delay" }).action = "block" →
        (Ota.processAssignDevice device fv ft rec).success = false ∧
        (Ota.processAssignDevice device fv ft rec).event = none ∧
        (Ota.processAssignDevice device fv ft rec).newStatus = none) ∧
    (∀ device fv ft (rec : Option Ota.OtaRec),
        (Ota.DeviceRec.model device <|> Ota.DeviceRec.deviceType device) = some ft →
        (match Ota.DeviceRec.firmware_currentVersion device with
         | some cv => strLt fv cv
         | none => false) = false →
        Option.getD (Ota.DeviceRec.firmware_status device) "idle" ≠ "updating" →
        (rec.getD { action := "delay" }).action = "delay" →
        (Ota.processAssignDevice device fv ft rec).success = true ∧
        (Ota.processAssignDevice device fv ft rec).newStatus = some "pending" ∧
        ∃ ev, (Ota.processAssignDevice device fv ft rec).event = some ev ∧
          ev.reason.isSome = true) := by
  refine ⟨?_, ?_, ?_⟩
  · intro device fv ft rec a1 a2
    rfl
  · intro device fv ft rec hb
    unfold Ota.processAssignDevice
    split_ifs <;> simp_all <;> (split <;> simp)
  · intro device fv ft rec hm hv hs hd
    unfold Ota.processAssignDevice
    rw [if_neg (not_not_intro hm)]
    rw [if_neg (by rw [hv]; exact Bool.false_ne_true)]
    rw [if_neg hs]
    rw [if_neg (by rw [hd]; decide)]
    rw [if_pos hd]
    refine ⟨rfl, rfl, ⟨_, rfl, ?_⟩⟩
    simp [hd]

/-- Witness for C8 amended: a `block` recommendation rejects the
assignment; a missing recommendation fail-closes to `delay` and lands an
otherwise assignable device in `pending`. -/
theorem C8_witness :
    (Ota.processAssignDevice Samples.devPersistedBlock "1.1.0" "esp32"
        (some { action := "block" })).success = false ∧
    (Ota.processAssignDevice Samples.devPersistedBlock "1.1.0" "esp32" none).success = true ∧
    (Ota.processAssignDevice Samples.devPersistedBlock "1.1.0" "esp32" none).newStatus =
      some "pending" := by
  refine ⟨?_, ?_, ?_⟩
  · exact (C8_assignment_gate.2.1 Samples.devPersistedBlock "1.1.0" "esp32"
      (some { action := "block" }) (by decide)).1
  · exact (C8_assignment_gate.2.2 Samples.devPersistedBlock "1.1.0" "esp32" none
      (by decide) (by decide) (by decide) (by decide)).1
  · exact (C8_assignment_gate.2.2 Samples.devPersistedBlock "1.1.0" "esp32" none
      (by decide) (by decide) (by decide) (by decide)).2.1

/-- Helper: the block ratio of `computeWindowStats`, unfolded. -/
theorem computeWindowStats_block_ratio (events : List Monitor.MonEvent) (ws : Int) :
    (Monitor.computeWindowStats events ws).block_ratio' =
      Monitor.jsToFixed
        (if 0 < (Monitor.windowFilter events ws).length then
          (((Monitor.windowFilter events ws).filter
              (fun e => Monitor.extractAction e == some "BLOCK")).length : ℚ) /
            ((Monitor.windowFilter events ws).length : ℚ)
         else 0) 2 := rfl

/-- C9 counterexample: for 3 in-window events of which 2 are `BLOCK`, the
monitor returns `block_ratio = 0.67` (the code rounds ratios with
`toFixed(2)`), not `0.667` as claimed. -/
theorem C9_counterexample :
    (Monitor.computeWindowStats Samples.threeEventsTwoBlock 0).block_ratio' = 67/100 ∧
    (Monitor.computeWindowStats Samples.threeEventsTwoBlock 0).block_ratio' ≠ 667/1000 := by
  have h1 : (Monitor.windowFilter Samples.threeEventsTwoBlock 0).length = 3 := by decide
  have h2 : ((Monitor.windowFilter Samples.threeEventsTwoBlock 0).filter
      (fun e => Monitor.extractAction e == some "BLOCK")).length = 2 := by decide
  have hb : (Monitor.computeWindowStats Samples.threeEventsTwoBlock 0).block_ratio' = 67/100 := by
    rw [computeWindowStats_block_ratio, h1, h2]
    rw [if_pos (by norm_num)]
    rw [Monitor.jsToFixed, round_eq]
    norm_num
  exact ⟨hb, by rw [hb]; norm_num⟩

/-- C9 amended: for every history with exactly 3 events inside the window
of which exactly 2 resolve to action `BLOCK`, `computeWindowStats` returns
`block_ratio = 0.67` (two-decimal rounding of 2/3) and the 15-minute
classification is `persistently_anomalous`, since a block ratio of at
least 0.6 (or an anomaly ratio of at least 0.6) classifies as
persistently anomalous, an anomaly ratio of at least 0.2 as borderline,
and anything else as normal. -/
theorem C9_block_ratio_and_classification :
    ∀ events ws,
      (Monitor.windowFilter events ws).length = 3 →
      ((Monitor.windowFilter events ws).filter
          (fun e => Monitor.extractAction e == some "BLOCK")).length = 2 →
      (Monitor.computeWindowStats events ws).block_ratio' = 67/100 ∧
      Monitor.classifyStateFromWindow (Monitor.computeWindowStats events ws) =
        "persistently_anomalous" := by
  intro events ws h1 h2
  have hb : (Monitor.computeWindowStats events ws).block_ratio' = 67/100 := by
    rw [computeWindowStats_block_ratio, h1, h2]
    rw [if_pos (by norm_num)]
    rw [Monitor.jsToFixed, round_eq]
    norm_num
  refine ⟨hb, ?_⟩
  unfold Monitor.classifyStateFromWindow
  rw [if_pos (Or.inl (by rw [hb]; norm_num))]

/-- Witness for C9 at the concrete three-event history. -/
theorem C9_witness :
    (Monitor.computeWindowStats Samples.threeEventsTwoBlock 0).block_ratio' = 67/100 ∧
    Monitor.classifyStateFromWindow (Monitor.computeWindowStats Samples.threeEventsTwoBlock 0) =
      "persistently_anomalous" :=
  C9_block_ratio_and_classification Samples.threeEventsTwoBlock 0 (by decide) (by decide)

end OTAWeb
